import Mathlib

/-!
Verification of the embedded melody-player firmware (GENIUS.c together with
the gpio_irq_manager, JoystickPi, ButtonPi and BuzzerPi libraries).

Modelling conventions, chosen to mirror the C source:

* C `int` values that are provably non-negative on every reachable state
  (pin numbers, melody indices, note indices, melody lengths) are modelled
  as `Nat`; signed quantities (timestamps, time differences, note
  frequencies, durations, the `int16_t` result of `joystickPi_map_value`)
  are modelled as `Int`.  Where an intermediate 32-bit `int` computation
  can overflow at type-correct inputs (`joystickPi_map_value`), the
  operation is guarded by the `int` range and signed overflow — undefined
  behaviour in C — is modelled as `Option` `none`.
* The monotonic clock is an explicit parameter `now`.  In the IRQ layer it
  is in microseconds (matching `absolute_time_diff_us`); in the player it
  is in milliseconds.  `time_reached t` is `t ≤ now`, and
  `make_timeout_time_ms d` is `current time + d`.  `play_tone` and
  `sleep_ms` block for exactly the note duration, so the deadline stored by
  `update_sound` after emitting a note of duration `d` is
  `(now + d) + d` : the time at which `make_timeout_time_ms(d)` runs is
  `now + d`.
* C `float` arithmetic is modelled as exact rational arithmetic.  Every
  float computation that a theorem below evaluates at a concrete input
  involves only values that IEEE single precision represents exactly
  (440 * 1.5, 441 * 1.5, 125000000 / 200000000, ...), so the rational
  model agrees with the hardware at those inputs.  The float-to-integer
  cast truncates toward zero (`ratTrunc`); the float-to-`uint32_t`
  conversion is undefined when the truncated value does not fit, which the
  model makes explicit with `Option` (`floatToUInt32`).
* Callbacks (C function pointers) are identified by an abstract `Nat` id;
  the IRQ dispatch table stores `Option Nat` (`none` = `NULL`).  A call of
  `gpio_irq_handler` returns the list of callback ids it invoked.
* The hardware side effects `gpio_set_irq_enabled`, `pwm_set_gpio_level`,
  `play_tone` and `sleep_ms` are modelled as, respectively, the
  `irq_enabled` field of the dispatch state and the `SoundAction` value
  returned by `update_sound`.
-/

/-! ## gpio_irq_manager.c -/

/-- Capacity of the dispatch table, `MAX_GPIO_PINS` in gpio_irq_manager.h. -/
def MAX_GPIO_PINS : ℕ := 30

/-- Debounce interval in milliseconds, `DEBOUNCE_DELAY_MS` in gpio_irq_manager.c. -/
def DEBOUNCE_DELAY_MS : ℤ := 200

/-- The global state of gpio_irq_manager.c: the `callbacks` array, the
`last_interrupt_time` array, and (modelling the `gpio_set_irq_enabled`
hardware calls) which pins currently have their interrupt enabled. -/
structure IrqState where
  callbacks : ℕ → Option ℕ
  last_interrupt_time : ℕ → ℤ
  irq_enabled : ℕ → Bool

/-- Pico SDK `absolute_time_diff_us(from, to)`: microseconds from `t0` to `t1`. -/
def absolute_time_diff_us (t0 t1 : ℤ) : ℤ := t1 - t0

/-- `gpio_irq_handler(gpio, events)` from gpio_irq_manager.c, with the current
time `now` (microseconds) passed explicitly in place of `get_absolute_time()`.
Returns the new global state and the list of callback ids invoked. -/
def gpio_irq_handler (gpio events : ℕ) (now : ℤ) (s : IrqState) : IrqState × List ℕ :=
  if gpio < MAX_GPIO_PINS then
    match s.callbacks gpio with
    | some cb =>
        if absolute_time_diff_us (s.last_interrupt_time gpio) now > DEBOUNCE_DELAY_MS * 1000 then
          ({ s with last_interrupt_time := fun p => if p = gpio then now else s.last_interrupt_time p },
           [cb])
        else (s, [])
    | none => (s, [])
  else (s, [])

/-- `register_gpio_callback(gpio, callback, event_mask)` from gpio_irq_manager.c. -/
def register_gpio_callback (gpio callback event_mask : ℕ) (s : IrqState) : IrqState :=
  if gpio < MAX_GPIO_PINS then
    { s with callbacks := fun p => if p = gpio then some callback else s.callbacks p,
             irq_enabled := fun p => if p = gpio then true else s.irq_enabled p }
  else s

/-- `remove_gpio_callback(gpio, event_mask)` from gpio_irq_manager.c. -/
def remove_gpio_callback (gpio event_mask : ℕ) (s : IrqState) : IrqState :=
  if gpio < MAX_GPIO_PINS then
    { s with callbacks := fun p => if p = gpio then none else s.callbacks p,
             irq_enabled := fun p => if p = gpio then false else s.irq_enabled p }
  else s

/-! ## JoystickPi.c -/

/-- The C cast `(int16_t)` applied to an `int` value: two's-complement
reduction into `[-32768, 32767]`. -/
def toInt16 (z : ℤ) : ℤ := (z + 32768) % 65536 - 32768

/-- Representability in C 32-bit `int`: the range `[-2^31, 2^31)`. -/
def int32Ok (z : ℤ) : Prop := -2147483648 ≤ z ∧ z < 2147483648

instance (z : ℤ) : Decidable (int32Ok z) :=
  inferInstanceAs (Decidable (-2147483648 ≤ z ∧ z < 2147483648))

/-- `joystickPi_map_value(value, min_input, max_input, min_output, max_output)`
from JoystickPi.c.  The `uint16_t` and `int16_t` arguments promote to `int`
(exactly), and the expression is evaluated in 32-bit `int` arithmetic:

* the two subtractions cannot overflow for type-correct (16-bit) arguments;
* the multiplication can overflow `int` — signed overflow is undefined
  behaviour, modelled as `none`;
* the division truncates toward zero (`Int.tdiv`); division by zero
  (`in_min = in_max`) is undefined behaviour (`none`), and the
  `int32Ok quot` guard is exactly the remaining `INT_MIN / -1` overflow case;
* the final addition can overflow `int` — again `none`;
* the result is converted to `int16_t`, which the target implementation
  defines as the two's-complement reduction `toInt16`. -/
def joystickPi_map_value (value min_input max_input : ℕ) (min_output max_output : ℤ) :
    Option ℤ :=
  let prod := ((value : ℤ) - (min_input : ℤ)) * (max_output - min_output)
  let d := (max_input : ℤ) - (min_input : ℤ)
  if int32Ok prod then
    if d = 0 then none
    else
      let quot := Int.tdiv prod d
      if int32Ok quot then
        if int32Ok (quot + min_output) then some (toInt16 (quot + min_output)) else none
      else none
  else none

/-- The map formula exactly as the specification words it (claim C8):
`out_min + (value - in_min) * (out_max - out_min) / (in_max - in_min)` with
truncating integer division and no `int16_t` reduction. -/
def map_value_claimed (value in_min in_max out_min out_max : ℤ) : ℤ :=
  out_min + Int.tdiv ((value - in_min) * (out_max - out_min)) (in_max - in_min)

/-! ## BuzzerPi.c -/

/-- The C cast of a real (float) value to an integer: truncation toward zero.
For a rational this is `num.tdiv den`. -/
def ratTrunc (q : ℚ) : ℤ := Int.tdiv q.num (q.den : ℤ)

/-- Conversion of a float value to `uint32_t` (C11 6.3.1.4): the fractional
part is discarded (truncation toward zero); if the truncated value is not
representable in `uint32_t` the behaviour is undefined (`none`). -/
def floatToUInt32 (q : ℚ) : Option ℕ :=
  if 0 ≤ ratTrunc q ∧ ratTrunc q < 4294967296 then some (ratTrunc q).toNat else none

/-- The Pico system clock frequency returned by `clock_get_hz(clk_sys)`. -/
def clk_sys_hz : ℕ := 125000000

/-- `calculate_wrap(target_frequency, clkdiv)` from BuzzerPi.c, with the system
clock frequency passed explicitly.  `clkdiv` is a `float`, so
`clock_freq / (target_frequency * clkdiv)` is float division, the `- 1` is a
float subtraction, and the assignment to the `uint32_t` local `wrap` is a
float-to-unsigned conversion; the final line clamps to 65535. -/
def calculate_wrap (clock_freq target_frequency : ℕ) (clkdiv : ℚ) : Option ℕ :=
  (floatToUInt32 ((clock_freq : ℚ) / ((target_frequency : ℚ) * clkdiv) - 1)).map
    (fun wrap => if 65535 < wrap then 65535 else wrap)

/-- `CLK_DIV_DEFAULT` (125.0f) from BuzzerPi.h. -/
def CLK_DIV_DEFAULT : ℚ := 125

/-- The wrap value that `play_tone(pin, freq, duration_ms)` programs into the
PWM slice: `calculate_wrap(freq, CLK_DIV_DEFAULT)`. -/
def play_tone_wrap (clock_freq freq : ℕ) : Option ℕ :=
  calculate_wrap clock_freq freq CLK_DIV_DEFAULT

/-- `calculate_wrap` as claim C10 describes it: unsigned integer arithmetic
throughout, so that when `target_frequency * clkdiv` exceeds the clock the
division yields 0 and the `- 1` wraps around to `2^32 - 1`. -/
def calculate_wrap_claimed (clock_freq target_frequency clkdiv : ℕ) : ℕ :=
  let wrap := (clock_freq / (target_frequency * clkdiv) + 4294967295) % 4294967296
  if 65535 < wrap then 65535 else wrap

/-! ## GENIUS.c -/

/-- The `Melody` struct of GENIUS.c: two arrays (modelled as total functions,
like the C pointers they are) and the note count `length`. -/
structure Melody where
  melody : ℕ → ℤ
  durations : ℕ → ℤ
  length : ℕ

/-- The `PlayerState` struct of GENIUS.c. -/
structure PlayerState where
  current_note : ℕ
  is_playing : Bool
  next_note_time : ℤ
  freq_mult : ℚ
  current_freq : ℤ

/-- The volatile `buttons` struct of GENIUS.c. -/
structure Buttons where
  index : ℕ
  a_pressed : Bool
  b_pressed : Bool

/-- `sizeof(melodies)/sizeof(Melody)`: the catalog in GENIUS.c has 3 entries. -/
def NUM_MELODIES : ℕ := 3

/-- `handle_input()` from GENIUS.c: consume the A flag (advance the melody
index modulo the catalog size and force pause), then consume the B flag
(flip play/pause and reset `current_note` to 0). -/
def handle_input (b : Buttons) (p : PlayerState) : Buttons × PlayerState :=
  let bp :=
    if b.a_pressed then
      ({ b with index := (b.index + 1) % NUM_MELODIES, a_pressed := false },
       { p with is_playing := false })
    else (b, p)
  if bp.1.b_pressed then
    ({ bp.1 with b_pressed := false },
     { bp.2 with is_playing := !bp.2.is_playing, current_note := 0 })
  else bp

/-- The externally visible effect of one `update_sound()` call:
`setLevelZero` is the `pwm_set_gpio_level(BUZZER_PIN, 0)` of the paused
branch, `tone idx f d` is `play_tone(BUZZER_PIN, f, d)` for the note at
index `idx`, `rest idx d` is the `sleep_ms(d)` of a non-positive note,
`stop` is the end-of-melody transition, and `waiting` means the deadline
was not yet reached. -/
inductive SoundAction where
  | setLevelZero
  | tone (idx : ℕ) (freq : ℤ) (dur : ℤ)
  | rest (idx : ℕ) (dur : ℤ)
  | stop
  | waiting
deriving DecidableEq

/-- `update_sound()` from GENIUS.c.  `m` is `melodies[buttons.index]`, `jsx`
is the joystick X sample `js.x` (an ADC value, 0 to 4095 on the hardware),
and `now` is the current time in milliseconds.  If paused, command zero PWM
level and return.  Otherwise recompute `freq_mult = 0.5 + x / 4095.0`; if the
deadline is reached, either stop at end of melody, or emit the current note
(a tone if its frequency is positive, else a silent rest), advance
`current_note`, and set the deadline to `duration` ms after the blocking
emission finishes (which is `duration` ms after `now`). -/
def update_sound (m : Melody) (jsx : ℚ) (now : ℤ) (p : PlayerState) : PlayerState × SoundAction :=
  if p.is_playing then
    let p1 := { p with freq_mult := 1/2 + jsx / 4095 }
    if p1.next_note_time ≤ now then
      if m.length ≤ p1.current_note then
        ({ p1 with is_playing := false }, SoundAction.stop)
      else
        let original := m.melody p1.current_note
        let duration := m.durations p1.current_note
        if 0 < original then
          ({ p1 with current_freq := ratTrunc ((original : ℚ) * p1.freq_mult),
                     current_note := p1.current_note + 1,
                     next_note_time := now + duration + duration },
           SoundAction.tone p1.current_note (ratTrunc ((original : ℚ) * p1.freq_mult)) duration)
        else
          ({ p1 with current_freq := 0,
                     current_note := p1.current_note + 1,
                     next_note_time := now + duration + duration },
           SoundAction.rest p1.current_note duration)
    else (p1, SoundAction.waiting)
  else (p, SoundAction.setLevelZero)

/-- The 3-note test melody of claim C6: frequencies `[440, 0, 880]`,
durations `[200, 100, 300]`. -/
def mel3 : Melody where
  melody := fun i => if i = 0 then 440 else if i = 1 then 0 else if i = 2 then 880 else 0
  durations := fun i => if i = 0 then 200 else if i = 1 then 100 else if i = 2 then 300 else 0
  length := 3

/-- A single-note test melody with a 440 Hz note, for the witnesses. -/
def mel440 : Melody where
  melody := fun _ => 440
  durations := fun _ => 200
  length := 1

/-! ## Helper lemmas about truncation -/

/-- Truncation toward zero agrees with the floor on non-negative rationals. -/
theorem ratTrunc_of_nonneg (q : ℚ) (h : 0 ≤ q) : ratTrunc q = ⌊q⌋ := by
  unfold ratTrunc
  rw [Int.tdiv_eq_ediv (Rat.num_nonneg.mpr h) (Int.natCast_nonneg _), Rat.floor_def]

/-- Truncation toward zero agrees with the ceiling on non-positive rationals. -/
theorem ratTrunc_of_nonpos (q : ℚ) (h : q ≤ 0) : ratTrunc q = ⌈q⌉ := by
  have h1 : ratTrunc q = -(ratTrunc (-q)) := by
    unfold ratTrunc
    rw [Rat.neg_num, Rat.neg_den, Int.neg_tdiv, neg_neg]
  rw [h1, ratTrunc_of_nonneg (-q) (neg_nonneg.mpr h), Int.floor_neg, neg_neg]

/-- Truncation of an integer is that integer. -/
theorem ratTrunc_intCast (n : ℤ) : ratTrunc (n : ℚ) = n := by
  unfold ratTrunc
  rw [Rat.num_intCast, Rat.den_intCast]
  exact Int.tdiv_one n

/-! ## Branch lemmas for update_sound -/

/-- Paused branch of `update_sound`: zero level is commanded and the state is
returned untouched. -/
theorem update_sound_paused (m : Melody) (jsx : ℚ) (now : ℤ) (p : PlayerState)
    (hp : p.is_playing = false) :
    update_sound m jsx now p = (p, SoundAction.setLevelZero) := by
  simp [update_sound, hp]

/-- Deadline-not-reached branch of `update_sound`: only `freq_mult` changes. -/
theorem update_sound_waiting (m : Melody) (jsx : ℚ) (now : ℤ) (p : PlayerState)
    (hp : p.is_playing = true) (ht : ¬ p.next_note_time ≤ now) :
    update_sound m jsx now p =
      ({ p with freq_mult := 1/2 + jsx / 4095 }, SoundAction.waiting) := by
  simp [update_sound, hp, ht]

/-- End-of-melody branch of `update_sound`. -/
theorem update_sound_stop (m : Melody) (jsx : ℚ) (now : ℤ) (p : PlayerState)
    (hp : p.is_playing = true) (ht : p.next_note_time ≤ now)
    (hend : m.length ≤ p.current_note) :
    update_sound m jsx now p =
      ({ p with freq_mult := 1/2 + jsx / 4095, is_playing := false }, SoundAction.stop) := by
  simp [update_sound, hp, ht, hend]

/-- Positive-frequency note branch of `update_sound`. -/
theorem update_sound_tone (m : Melody) (jsx : ℚ) (now : ℤ) (p : PlayerState)
    (hp : p.is_playing = true) (ht : p.next_note_time ≤ now)
    (hn : p.current_note < m.length) (hpos : 0 < m.melody p.current_note) :
    update_sound m jsx now p =
      ({ p with freq_mult := 1/2 + jsx / 4095,
                current_freq := ratTrunc ((m.melody p.current_note : ℚ) * (1/2 + jsx / 4095)),
                current_note := p.current_note + 1,
                next_note_time := now + m.durations p.current_note + m.durations p.current_note },
       SoundAction.tone p.current_note
         (ratTrunc ((m.melody p.current_note : ℚ) * (1/2 + jsx / 4095)))
         (m.durations p.current_note)) := by
  simp [update_sound, hp, ht, Nat.not_le.mpr hn, hpos]

/-- Rest (non-positive frequency) branch of `update_sound`. -/
theorem update_sound_rest (m : Melody) (jsx : ℚ) (now : ℤ) (p : PlayerState)
    (hp : p.is_playing = true) (ht : p.next_note_time ≤ now)
    (hn : p.current_note < m.length) (hnpos : m.melody p.current_note ≤ 0) :
    update_sound m jsx now p =
      ({ p with freq_mult := 1/2 + jsx / 4095,
                current_freq := 0,
                current_note := p.current_note + 1,
                next_note_time := now + m.durations p.current_note + m.durations p.current_note },
       SoundAction.rest p.current_note (m.durations p.current_note)) := by
  simp [update_sound, hp, ht, Nat.not_le.mpr hn, Int.not_lt.mpr hnpos]

/-! ## Claims about the interrupt dispatch layer -/

/-- Claim C1: for a valid pin with a registered callback, a dispatch whose
elapsed time since the pin's last accepted trigger exceeds the 200 ms debounce
window invokes the callback exactly once and updates the pin's timestamp; a
dispatch within the window invokes nothing and changes nothing (hard veto), so
two dispatches within one window invoke the callback exactly once total. -/
theorem claim_C1 (s : IrqState) (p cb ev1 ev2 : ℕ) (now1 now2 : ℤ)
    (hp : p < MAX_GPIO_PINS) (hcb : s.callbacks p = some cb)
    (hfirst : now1 - s.last_interrupt_time p > DEBOUNCE_DELAY_MS * 1000)
    (hsecond : now2 - now1 ≤ DEBOUNCE_DELAY_MS * 1000) :
    (gpio_irq_handler p ev1 now1 s).2 = [cb] ∧
    (gpio_irq_handler p ev1 now1 s).1.last_interrupt_time p = now1 ∧
    (gpio_irq_handler p ev1 now1 s).1.callbacks = s.callbacks ∧
    gpio_irq_handler p ev2 now2 (gpio_irq_handler p ev1 now1 s).1 =
      ((gpio_irq_handler p ev1 now1 s).1, []) ∧
    (gpio_irq_handler p ev1 now1 s).2.length +
      (gpio_irq_handler p ev2 now2 (gpio_irq_handler p ev1 now1 s).1).2.length = 1 := by
  have e1 : gpio_irq_handler p ev1 now1 s =
      ({ s with last_interrupt_time := fun q => if q = p then now1 else s.last_interrupt_time q },
       [cb]) := by
    simp [gpio_irq_handler, hp, hcb, absolute_time_diff_us, hfirst]
  have e2 : gpio_irq_handler p ev2 now2 (gpio_irq_handler p ev1 now1 s).1 =
      ((gpio_irq_handler p ev1 now1 s).1, []) := by
    rw [e1]
    simp [gpio_irq_handler, hp, hcb, absolute_time_diff_us, Int.not_lt.mpr hsecond]
  refine ⟨by rw [e1], by rw [e1]; simp, by rw [e1], e2, by rw [e2, e1]; rfl⟩

/-- Witness for C1 at pin 5, callback id 7, timestamps 0 / 300000 / 400000 µs. -/
theorem claim_C1_witness :
    (gpio_irq_handler 5 0 300000 ⟨fun _ => some 7, fun _ => 0, fun _ => false⟩).2 = [7] ∧
    (gpio_irq_handler 5 0 300000 ⟨fun _ => some 7, fun _ => 0, fun _ => false⟩).2.length +
      (gpio_irq_handler 5 0 400000
        (gpio_irq_handler 5 0 300000 ⟨fun _ => some 7, fun _ => 0, fun _ => false⟩).1).2.length
      = 1 := by
  have h := claim_C1 ⟨fun _ => some 7, fun _ => 0, fun _ => false⟩ 5 7 0 0 300000 400000
    (by norm_num [MAX_GPIO_PINS]) rfl
    (by norm_num [DEBOUNCE_DELAY_MS]) (by norm_num [DEBOUNCE_DELAY_MS])
  exact ⟨h.1, h.2.2.2.2⟩

/-- Claim C3: for every pin index at or beyond the 30-entry capacity,
register, remove and dispatch are no-ops on the whole dispatch state and
invoke no callback. -/
theorem claim_C3 (s : IrqState) (p cb ev : ℕ) (now : ℤ) (hp : MAX_GPIO_PINS ≤ p) :
    register_gpio_callback p cb ev s = s ∧
    remove_gpio_callback p ev s = s ∧
    gpio_irq_handler p ev now s = (s, []) := by
  refine ⟨?_, ?_, ?_⟩ <;>
    simp [register_gpio_callback, remove_gpio_callback, gpio_irq_handler, Nat.not_lt.mpr hp]

/-- Witness for C3 at pin 30 (the first out-of-range index). -/
theorem claim_C3_witness :
    register_gpio_callback 30 1 0 ⟨fun _ => none, fun _ => 0, fun _ => false⟩ =
      ⟨fun _ => none, fun _ => 0, fun _ => false⟩ ∧
    remove_gpio_callback 30 0 ⟨fun _ => none, fun _ => 0, fun _ => false⟩ =
      ⟨fun _ => none, fun _ => 0, fun _ => false⟩ ∧
    gpio_irq_handler 30 0 500 ⟨fun _ => none, fun _ => 0, fun _ => false⟩ =
      (⟨fun _ => none, fun _ => 0, fun _ => false⟩, []) :=
  claim_C3 ⟨fun _ => none, fun _ => 0, fun _ => false⟩ 30 1 0 500 (by norm_num [MAX_GPIO_PINS])

/-! ## Claims about handle_input -/

/-- Counterexample to claim C2 as stated: consuming the button-A flag with
`current_note = 5` leaves `current_note` at 5; it is not reset to 0. -/
theorem claim_C2_counterexample :
    ¬ ((handle_input ⟨0, true, false⟩ ⟨5, true, 0, 1, 0⟩).2.current_note = 0) := by
  simp [handle_input]

/-- Claim C2 as amended: consuming the button-A flag sets the selection to
`(selection + 1) mod catalog_length`, forces `is_playing = false`, and clears
the flag, but leaves `current_note` unchanged (it is only reset by the
play/pause toggle). -/
theorem claim_C2_amended (b : Buttons) (p : PlayerState)
    (ha : b.a_pressed = true) (hb : b.b_pressed = false) :
    (handle_input b p).1.index = (b.index + 1) % NUM_MELODIES ∧
    (handle_input b p).1.a_pressed = false ∧
    (handle_input b p).2.is_playing = false ∧
    (handle_input b p).2.current_note = p.current_note := by
  simp [handle_input, ha, hb]

/-- Witness for the amended C2: advancing from the last catalog index 2 wraps
to 0, pauses, and keeps `current_note` at 5. -/
theorem claim_C2_witness :
    (handle_input ⟨2, true, false⟩ ⟨5, true, 9, 1, 0⟩).1.index = 0 ∧
    (handle_input ⟨2, true, false⟩ ⟨5, true, 9, 1, 0⟩).2.is_playing = false ∧
    (handle_input ⟨2, true, false⟩ ⟨5, true, 9, 1, 0⟩).2.current_note = 5 := by
  have h := claim_C2_amended ⟨2, true, false⟩ ⟨5, true, 9, 1, 0⟩ rfl rfl
  exact ⟨by rw [h.1]; rfl, h.2.2.1, h.2.2.2⟩

/-- Claim C7: consuming the button-B flag flips `is_playing` and resets
`current_note` to 0, in both directions of the toggle (the flip is stated for
an arbitrary prior `is_playing`, so it covers both). -/
theorem claim_C7 (b : Buttons) (p : PlayerState)
    (ha : b.a_pressed = false) (hb : b.b_pressed = true) :
    (handle_input b p).2.is_playing = !p.is_playing ∧
    (handle_input b p).2.current_note = 0 ∧
    (handle_input b p).1.b_pressed = false ∧
    (handle_input b p).1.index = b.index := by
  simp [handle_input, ha, hb]

/-- Witness for C7: toggling from Playing with `current_note = 4` yields
Paused with `current_note = 0`. -/
theorem claim_C7_witness :
    (handle_input ⟨1, false, true⟩ ⟨4, true, 9, 1, 0⟩).2.is_playing = false ∧
    (handle_input ⟨1, false, true⟩ ⟨4, true, 9, 1, 0⟩).2.current_note = 0 := by
  have h := claim_C7 ⟨1, false, true⟩ ⟨4, true, 9, 1, 0⟩ rfl rfl
  exact ⟨h.1, h.2.1⟩

/-! ## Claims about update_sound -/

/-- Claim C9: while paused, `update_sound` commands zero PWM level and changes
nothing at all (in particular `freq_mult`, `current_note`, `current_freq` and
the deadline are untouched); the frequency multiplier is recomputed from the
joystick sample only while playing. -/
theorem claim_C9 (m : Melody) (jsx : ℚ) (now : ℤ) (p : PlayerState) :
    (p.is_playing = false → update_sound m jsx now p = (p, SoundAction.setLevelZero)) ∧
    (p.is_playing = true → (update_sound m jsx now p).1.freq_mult = 1/2 + jsx / 4095) := by
  constructor
  · intro hp
    simp [update_sound, hp]
  · intro hp
    simp only [update_sound, hp, if_true]
    split
    · split
      · rfl
      · split
        · rfl
        · rfl
    · rfl

/-- Witness for C9: a paused state is returned untouched with a zero-level
command. -/
theorem claim_C9_witness :
    update_sound mel440 3000 17 ⟨2, false, 7, 1, 3⟩ = (⟨2, false, 7, 1, 3⟩, SoundAction.setLevelZero) :=
  (claim_C9 mel440 3000 17 ⟨2, false, 7, 1, 3⟩).1 rfl

/-- Claim C4: when the playback update runs while playing with
`current_note ≥ melody length`, the player becomes paused without resetting
`current_note`, without changing `current_freq`, and without emitting anything;
moreover every tone or rest `update_sound` ever emits reads the melody at an
index strictly below the melody length, so the arrays are never indexed out of
range. -/
theorem claim_C4 (m : Melody) (jsx : ℚ) (now : ℤ) (p : PlayerState) :
    (p.is_playing = true → p.next_note_time ≤ now → m.length ≤ p.current_note →
      (update_sound m jsx now p).1.is_playing = false ∧
      (update_sound m jsx now p).1.current_note = p.current_note ∧
      (update_sound m jsx now p).1.current_freq = p.current_freq ∧
      (update_sound m jsx now p).2 = SoundAction.stop) ∧
    (∀ i f d, (update_sound m jsx now p).2 = SoundAction.tone i f d → i < m.length) ∧
    (∀ i d, (update_sound m jsx now p).2 = SoundAction.rest i d → i < m.length) := by
  refine ⟨?_, ?_, ?_⟩
  · intro hp ht hend
    rw [update_sound_stop m jsx now p hp ht hend]
    exact ⟨rfl, rfl, rfl, rfl⟩
  · intro i f d h
    simp only [update_sound] at h
    split at h
    · split at h
      · split at h
        · simp at h
        · rename_i hlen
          split at h
          · simp only [SoundAction.tone.injEq] at h
            omega
          · simp at h
      · simp at h
    · simp at h
  · intro i d h
    simp only [update_sound] at h
    split at h
    · split at h
      · split at h
        · simp at h
        · rename_i hlen
          split at h
          · simp at h
          · simp only [SoundAction.rest.injEq] at h
            omega
      · simp at h
    · simp at h

/-- Witness for C4: at the end of the single-note melody the player pauses
with `current_note` still 1 and no emission. -/
theorem claim_C4_witness :
    (update_sound mel440 0 5 ⟨1, true, 0, 1, 440⟩).1.is_playing = false ∧
    (update_sound mel440 0 5 ⟨1, true, 0, 1, 440⟩).1.current_note = 1 ∧
    (update_sound mel440 0 5 ⟨1, true, 0, 1, 440⟩).1.current_freq = 440 ∧
    (update_sound mel440 0 5 ⟨1, true, 0, 1, 440⟩).2 = SoundAction.stop :=
  (claim_C4 mel440 0 5 ⟨1, true, 0, 1, 440⟩).1 rfl (by norm_num) (by norm_num [mel440])

/-- A single-note test melody with a 441 Hz note, for the C5 counterexample. -/
def mel441 : Melody where
  melody := fun _ => 441
  durations := fun _ => 200
  length := 1

/-- Counterexample to claim C5 as stated: with the joystick at full scale
(`js.x = 4095`, so `freq_mult = 0.5 + 4095/4095 = 1.5`) and a 441 Hz note,
the code records `(int)(441 * 1.5) = 661`, while `round(441 * 1.5) = 662`:
the effective frequency is the truncation, not the rounding, of
`note_freq * freq_mult`. -/
theorem claim_C5_counterexample :
    ¬ ((update_sound mel441 4095 0 ⟨0, true, 0, 1, 0⟩).1.current_freq
        = round ((441 : ℚ) * (3/2))) := by
  rw [update_sound_tone mel441 4095 0 ⟨0, true, 0, 1, 0⟩ rfl (by norm_num)
    (by norm_num [mel441]) (by norm_num [mel441])]
  have h1 : ratTrunc ((mel441.melody 0 : ℚ) * (1/2 + (4095 : ℚ) / 4095)) = 661 := by
    norm_num [mel441, ratTrunc]
    decide
  have h2 : round ((441 : ℚ) * (3/2)) = 662 := by
    norm_num [round_eq]
  simp only [h1, h2]
  norm_num

/-- Claim C5 as amended: when the current note's stored frequency is positive,
the effective frequency emitted and recorded equals the truncation toward zero
of `note_freq * freq_mult` (the floor, since the product is non-negative), not
its rounding; with `freq_mult = 1.5` and a 440 Hz note this is 660, where
truncation and rounding happen to agree. -/
theorem claim_C5_amended (m : Melody) (jsx : ℚ) (now : ℤ) (p : PlayerState)
    (hp : p.is_playing = true) (ht : p.next_note_time ≤ now)
    (hn : p.current_note < m.length) (hpos : 0 < m.melody p.current_note)
    (hx : 0 ≤ jsx) :
    (update_sound m jsx now p).1.current_freq
        = ⌊(m.melody p.current_note : ℚ) * (1/2 + jsx / 4095)⌋ ∧
    (update_sound m jsx now p).2
        = SoundAction.tone p.current_note
            (⌊(m.melody p.current_note : ℚ) * (1/2 + jsx / 4095)⌋)
            (m.durations p.current_note) := by
  have hmul : (0 : ℚ) ≤ (m.melody p.current_note : ℚ) * (1/2 + jsx / 4095) := by
    have hx1 : (0 : ℚ) ≤ jsx / 4095 := by positivity
    have hm : (0 : ℚ) ≤ (m.melody p.current_note : ℚ) := by exact_mod_cast hpos.le
    nlinarith
  rw [update_sound_tone m jsx now p hp ht hn hpos]
  rw [ratTrunc_of_nonneg _ hmul]
  exact ⟨rfl, rfl⟩

/-- Witness for the amended C5: joystick at full scale gives `freq_mult = 1.5`
and the 440 Hz note is emitted at `floor(440 * 1.5) = 660` Hz. -/
theorem claim_C5_witness :
    (update_sound mel440 4095 0 ⟨0, true, 0, 1, 0⟩).1.current_freq = 660 := by
  have h := claim_C5_amended mel440 4095 0 ⟨0, true, 0, 1, 0⟩ rfl (by norm_num)
    (by norm_num [mel440]) (by norm_num [mel440]) (by norm_num)
  rw [h.1]
  norm_num [mel440]

/-- Claim C6: on the 3-note melody `[440, 0, 880]` / `[200, 100, 300]`, playing
from note 0 with the joystick centred so that `freq_mult = 1`, the emitted
sequence is the tone (440, 200), a silent rest of 100 (recorded frequency 0),
the tone (880, 300), then the end-of-melody stop leaving the player paused at
`current_note = 3`, after which nothing further is emitted; each note advances
`current_note` by exactly one and sets the deadline to `duration` past the time
at which the blocking emission ends (`now_k + duration`). -/
theorem claim_C6 (t0 : ℤ) (f0 : ℚ) (c0 : ℤ) (now1 now2 now3 now4 now5 : ℤ)
    (h1 : t0 ≤ now1) (h2 : now1 + 400 ≤ now2) (h3 : now2 + 200 ≤ now3)
    (h4 : now3 + 600 ≤ now4) :
    ∃ s1 s2 s3 s4 s5 : PlayerState,
      update_sound mel3 ((4095 : ℚ)/2) now1 ⟨0, true, t0, f0, c0⟩
          = (s1, SoundAction.tone 0 440 200) ∧
      s1.current_note = 1 ∧ s1.next_note_time = (now1 + 200) + 200 ∧ s1.current_freq = 440 ∧
      update_sound mel3 ((4095 : ℚ)/2) now2 s1 = (s2, SoundAction.rest 1 100) ∧
      s2.current_note = 2 ∧ s2.next_note_time = (now2 + 100) + 100 ∧ s2.current_freq = 0 ∧
      update_sound mel3 ((4095 : ℚ)/2) now3 s2 = (s3, SoundAction.tone 2 880 300) ∧
      s3.current_note = 3 ∧ s3.next_note_time = (now3 + 300) + 300 ∧ s3.current_freq = 880 ∧
      update_sound mel3 ((4095 : ℚ)/2) now4 s3 = (s4, SoundAction.stop) ∧
      s4.is_playing = false ∧ s4.current_note = 3 ∧
      update_sound mel3 ((4095 : ℚ)/2) now5 s4 = (s5, SoundAction.setLevelZero) ∧
      s5 = s4 := by
  have hmult : (1 : ℚ)/2 + ((4095 : ℚ)/2) / 4095 = 1 := by norm_num
  refine ⟨⟨1, true, now1 + 200 + 200, 1, 440⟩, ⟨2, true, now2 + 100 + 100, 1, 0⟩,
    ⟨3, true, now3 + 300 + 300, 1, 880⟩, ⟨3, false, now3 + 300 + 300, 1, 880⟩,
    ⟨3, false, now3 + 300 + 300, 1, 880⟩,
    ?_, rfl, rfl, rfl, ?_, rfl, rfl, rfl, ?_, rfl, rfl, rfl, ?_, rfl, rfl, ?_, rfl⟩
  · rw [update_sound_tone mel3 ((4095 : ℚ)/2) now1 ⟨0, true, t0, f0, c0⟩ rfl h1
      (by norm_num [mel3]) (by norm_num [mel3])]
    simp only [mel3, hmult]
    norm_num [Prod.ext_iff, PlayerState.mk.injEq, SoundAction.tone.injEq, ratTrunc]
  · rw [update_sound_rest mel3 ((4095 : ℚ)/2) now2 ⟨1, true, now1 + 200 + 200, 1, 440⟩ rfl
      (show now1 + 200 + 200 ≤ now2 by omega) (by norm_num [mel3]) (by norm_num [mel3])]
    simp only [mel3, hmult]
    norm_num [Prod.ext_iff, PlayerState.mk.injEq, SoundAction.rest.injEq]
  · rw [update_sound_tone mel3 ((4095 : ℚ)/2) now3 ⟨2, true, now2 + 100 + 100, 1, 0⟩ rfl
      (show now2 + 100 + 100 ≤ now3 by omega) (by norm_num [mel3]) (by norm_num [mel3])]
    simp only [mel3, hmult]
    norm_num [Prod.ext_iff, PlayerState.mk.injEq, SoundAction.tone.injEq, ratTrunc]
  · rw [update_sound_stop mel3 ((4095 : ℚ)/2) now4 ⟨3, true, now3 + 300 + 300, 1, 880⟩ rfl
      (show now3 + 300 + 300 ≤ now4 by omega) (by norm_num [mel3])]
    simp only [hmult]
  · exact update_sound_paused mel3 ((4095 : ℚ)/2) now5 ⟨3, false, now3 + 300 + 300, 1, 880⟩ rfl

/-- Witness for C6 at concrete times 0, 400, 600, 1200, 1300 ms: the first
emission is the (440, 200) tone. -/
theorem claim_C6_witness :
    (update_sound mel3 ((4095 : ℚ)/2) 0 ⟨0, true, 0, 1, 0⟩).2 = SoundAction.tone 0 440 200 := by
  obtain ⟨s1, s2, s3, s4, s5, e1, -⟩ :=
    claim_C6 0 1 0 0 400 600 1200 1300 (by norm_num) (by norm_num) (by norm_num) (by norm_num)
  rw [e1]

/-! ## Claims about joystickPi_map_value -/

/-- The int16 reduction is the identity on values already in range. -/
theorem toInt16_eq_self (z : ℤ) (h1 : -32768 ≤ z) (h2 : z < 32768) : toInt16 z = z := by
  unfold toInt16
  rw [Int.emod_eq_of_lt (by omega) (by omega)]
  omega

/-- Whenever the C computation is defined (no undefined behaviour), the
result is the spec formula reduced by the int16 cast. -/
theorem joystickPi_map_value_defined (v mi ma : ℕ) (lo hi : ℤ) (r : ℤ)
    (h : joystickPi_map_value v mi ma lo hi = some r) :
    r = toInt16 (map_value_claimed v mi ma lo hi) := by
  simp only [joystickPi_map_value] at h
  split at h
  · split at h
    · simp at h
    · split at h
      · split at h
        · rw [Option.some.injEq] at h
          rw [← h]
          unfold map_value_claimed
          congr 1
          ring
        · simp at h
      · simp at h
  · simp at h

/-- Counterexample to claim C8 as stated: at
`value = 65535, in_min = 0, in_max = 1, out_min = 0, out_max = 32767` the
formula value `65535 * 32767 = 2147385345` fits in 32-bit `int` (so the C
computation is defined) but not in `int16_t`, and the function returns its
two's-complement reduction `-32767` instead of the formula value. -/
theorem claim_C8_counterexample :
    ¬ (joystickPi_map_value 65535 0 1 0 32767
        = some (map_value_claimed 65535 0 1 0 32767)) := by
  decide

/-- Claim C8 as amended: wherever the C computation is defined — `in_min ≠
in_max` and no 32-bit intermediate overflows (signed overflow is undefined
behaviour) — `joystickPi_map_value` returns the linear rescale
`out_min + (value - in_min) * (out_max - out_min) / (in_max - in_min)` with
truncating integer division, reduced into `int16_t` by two's-complement wrap,
and it equals the formula exactly whenever the formula's value fits in
`int16_t`.  The `in_min` endpoint is always defined and exact (its
intermediate product is 0); the `in_max` endpoint is defined and exact
whenever its intermediate product `(in_max - in_min) * (out_max - out_min)`
fits in 32-bit `int`. -/
theorem claim_C8_amended (value min_input max_input : ℕ) (min_output max_output : ℤ)
    (hne : min_input ≠ max_input)
    (ho1 : -32768 ≤ min_output) (ho2 : min_output < 32768)
    (ho3 : -32768 ≤ max_output) (ho4 : max_output < 32768) :
    (∀ r : ℤ,
      joystickPi_map_value value min_input max_input min_output max_output = some r →
      r = toInt16 (map_value_claimed value min_input max_input min_output max_output)) ∧
    (∀ r : ℤ,
      joystickPi_map_value value min_input max_input min_output max_output = some r →
      -32768 ≤ map_value_claimed value min_input max_input min_output max_output →
      map_value_claimed value min_input max_input min_output max_output < 32768 →
      r = map_value_claimed value min_input max_input min_output max_output) ∧
    joystickPi_map_value min_input min_input max_input min_output max_output
      = some min_output ∧
    (int32Ok (((max_input : ℤ) - (min_input : ℤ)) * (max_output - min_output)) →
      joystickPi_map_value max_input min_input max_input min_output max_output
        = some max_output) := by
  have hd : (max_input : ℤ) - (min_input : ℤ) ≠ 0 := by
    intro h
    have h' : (max_input : ℤ) = (min_input : ℤ) := by omega
    exact hne (by exact_mod_cast h'.symm)
  refine ⟨?_, ?_, ?_, ?_⟩
  · intro r h
    exact joystickPi_map_value_defined _ _ _ _ _ _ h
  · intro r h hga hgb
    rw [joystickPi_map_value_defined _ _ _ _ _ _ h]
    exact toInt16_eq_self _ hga hgb
  · simp only [joystickPi_map_value, sub_self, zero_mul, Int.zero_tdiv, zero_add]
    rw [if_pos (show int32Ok 0 from ⟨by norm_num, by norm_num⟩), if_neg hd,
      if_pos (show int32Ok 0 from ⟨by norm_num, by norm_num⟩),
      if_pos (show int32Ok min_output from ⟨by omega, by omega⟩),
      toInt16_eq_self min_output ho1 ho2]
  · intro hgood
    simp only [joystickPi_map_value]
    rw [if_pos hgood, if_neg hd, Int.mul_tdiv_cancel_left _ hd,
      if_pos (show int32Ok (max_output - min_output) from ⟨by omega, by omega⟩),
      sub_add_cancel,
      if_pos (show int32Ok max_output from ⟨by omega, by omega⟩),
      toInt16_eq_self max_output ho3 ho4]

/-- Witness for the amended C8: mapping the 12-bit ADC range onto [-100, 100]
is defined (no 32-bit overflow), exact at both endpoints, and at input 1000 it
equals the rescale formula, -52. -/
theorem claim_C8_witness :
    joystickPi_map_value 1000 0 4095 (-100) 100 = some (-52) ∧
    joystickPi_map_value 0 0 4095 (-100) 100 = some (-100) ∧
    joystickPi_map_value 4095 0 4095 (-100) 100 = some 100 := by
  have h := claim_C8_amended 1000 0 4095 (-100) 100 (by norm_num) (by norm_num)
    (by norm_num) (by norm_num) (by norm_num)
  refine ⟨?_, h.2.2.1, h.2.2.2 (by decide)⟩
  have e : joystickPi_map_value 1000 0 4095 (-100) 100 = some (-52) := by decide
  have h1 := h.2.1 (-52) e (by decide) (by decide)
  exact e

/-! ## Claims about calculate_wrap -/

/-- Truncation toward zero sends the whole interval (-1, 0] to 0. -/
theorem ratTrunc_eq_zero_of_neg_unit (q : ℚ) (h1 : -1 < q) (h2 : q ≤ 0) : ratTrunc q = 0 := by
  rw [ratTrunc_of_nonpos q h2]
  have hle : ⌈q⌉ ≤ 0 := Int.ceil_le.mpr (by exact_mod_cast h2)
  have hgt : (-1 : ℤ) < ⌈q⌉ := Int.lt_ceil.mpr (by exact_mod_cast h1)
  omega

/-- Counterexample to claim C10 as stated: at
`target_frequency = 200000000, clkdiv = 1` (so `target_frequency * clkdiv`
exceeds the 125 MHz clock) there is no unsigned wraparound: the arithmetic is
float arithmetic, the quotient `0.625 - 1 = -0.375` truncates to 0 on
conversion to `uint32_t`, and the function returns 0, not the claimed
wrapped-then-clamped 65535. -/
theorem claim_C10_counterexample :
    ¬ (calculate_wrap clk_sys_hz 200000000 1
        = some (calculate_wrap_claimed clk_sys_hz 200000000 1)) := by
  have h1 : calculate_wrap clk_sys_hz 200000000 1 = some 0 := by
    norm_num [calculate_wrap, floatToUInt32, ratTrunc, clk_sys_hz]
    decide
  have h2 : calculate_wrap_claimed clk_sys_hz 200000000 1 = 65535 := by
    norm_num [calculate_wrap_claimed, clk_sys_hz]
  rw [h1, h2]
  norm_num

/-- Claim C10 as amended: every value `calculate_wrap` returns is at most
65535 (hence `play_tone` never programs a PWM wrap above the hardware
maximum); but in the case where `target_frequency * clkdiv` exceeds a positive
clock frequency the float quotient lies in (0, 1), the float subtraction gives
a value in (-1, 0) whose conversion to `uint32_t` truncates to 0, and the
function returns 0 — no unsigned wraparound to a value clamped at 65535
occurs. -/
theorem claim_C10_amended (clock target : ℕ) (clkdiv : ℚ) (w : ℕ) :
    (calculate_wrap clock target clkdiv = some w → w ≤ 65535) ∧
    (play_tone_wrap clock target = some w → w ≤ 65535) ∧
    (0 < clock → (clock : ℚ) < (target : ℚ) * clkdiv →
      calculate_wrap clock target clkdiv = some 0) := by
  have hb : ∀ c : ℚ, calculate_wrap clock target c = some w → w ≤ 65535 := by
    intro c h
    unfold calculate_wrap at h
    cases hf : floatToUInt32 ((clock : ℚ) / ((target : ℚ) * c) - 1) with
    | none => rw [hf] at h; simp at h
    | some a =>
        rw [hf] at h
        simp only [Option.map_some', Option.some.injEq] at h
        split at h <;> omega
  refine ⟨hb clkdiv, hb CLK_DIV_DEFAULT, ?_⟩
  intro hc hlt
  have hq0 : (0 : ℚ) < (clock : ℚ) := by exact_mod_cast hc
  have hden : (0 : ℚ) < (target : ℚ) * clkdiv := lt_trans hq0 hlt
  have hqpos : 0 < (clock : ℚ) / ((target : ℚ) * clkdiv) := div_pos hq0 hden
  have hqlt : (clock : ℚ) / ((target : ℚ) * clkdiv) < 1 := (div_lt_one hden).mpr hlt
  have ht : ratTrunc ((clock : ℚ) / ((target : ℚ) * clkdiv) - 1) = 0 :=
    ratTrunc_eq_zero_of_neg_unit _ (by linarith) (by linarith)
  unfold calculate_wrap floatToUInt32
  rw [ht]
  norm_num

/-- Witness for the amended C10: at 1000 Hz with the default divider the wrap
is 999 (within bound), and at an over-range 300 MHz request the result is 0. -/
theorem claim_C10_witness :
    calculate_wrap clk_sys_hz 1000 125 = some 999 ∧ 999 ≤ 65535 ∧
    calculate_wrap clk_sys_hz 300000000 1 = some 0 := by
  have e : calculate_wrap clk_sys_hz 1000 125 = some 999 := by
    norm_num [calculate_wrap, floatToUInt32, ratTrunc, clk_sys_hz]
    decide
  refine ⟨e, (claim_C10_amended clk_sys_hz 1000 125 999).1 e, ?_⟩
  exact (claim_C10_amended clk_sys_hz 300000000 1 0).2.2
    (by norm_num [clk_sys_hz]) (by norm_num [clk_sys_hz])
